import Mathlib

/-!
Verification of the retrieval-and-ranking subsystem of `ds-agent-2.0`:
a shallow embedding of `api/core/enhanced_vector_store.py`
(`EnhancedVectorStore.build_index`, `.search`, `.multi_stage_search`,
`._matches_filter`) and `api/agent/candidate_retriever.py`
(`CandidateRetriever.retrieve`, `._combine_and_rank`,
`._get_best_match_ui_patterns`, `._extract_layout_schema_from_best_match_layout`,
`._extract_schema_structure`, `.get_fallback_layout`), together with proofs of
the specified properties.

Python dict/JSON values are modelled by `JValue`; float scores and distances by
rationals; functions that can raise (list indexing) return `Except`/`Option`.
The FAISS index and the sentence-transformer embedding model are external
libraries: the embedding is an abstract function, and `search` is parametrised
by the (index, distance) pairs the FAISS k-NN call returns.
-/

namespace DSAgent

/-- Model of a Python/JSON value (chunks, metadata, layout schemas are
nested dicts, lists, strings and numbers). Numbers are modelled as rationals. -/
inductive JValue where
  | null : JValue
  | bool : Bool → JValue
  | num : ℚ → JValue
  | str : String → JValue
  | arr : List JValue → JValue
  | obj : List (String × JValue) → JValue
  deriving Inhabited

mutual

/-- Structural (value) equality on `JValue`, modelling Python `==`/`!=`
on JSON-like values. -/
def jbeq : JValue → JValue → Bool
  | .null, .null => true
  | .bool a, .bool b => a == b
  | .num a, .num b => a == b
  | .str a, .str b => a == b
  | .arr xs, .arr ys => jbeqList xs ys
  | .obj xs, .obj ys => jbeqObj xs ys
  | _, _ => false

def jbeqList : List JValue → List JValue → Bool
  | [], [] => true
  | x :: xs, y :: ys => jbeq x y && jbeqList xs ys
  | _, _ => false

def jbeqObj : List (String × JValue) → List (String × JValue) → Bool
  | [], [] => true
  | (k, v) :: xs, (l, w) :: ys => k == l && jbeq v w && jbeqObj xs ys
  | _, _ => false

end

mutual

theorem jbeq_iff : ∀ a b : JValue, jbeq a b = true ↔ a = b
  | .null, .null => by simp [jbeq]
  | .null, .bool _ | .null, .num _ | .null, .str _ | .null, .arr _ | .null, .obj _ => by
    simp [jbeq]
  | .bool _, .null | .bool _, .num _ | .bool _, .str _ | .bool _, .arr _ | .bool _, .obj _ => by
    simp [jbeq]
  | .bool a, .bool b => by simp [jbeq]
  | .num _, .null | .num _, .bool _ | .num _, .str _ | .num _, .arr _ | .num _, .obj _ => by
    simp [jbeq]
  | .num a, .num b => by simp [jbeq]
  | .str _, .null | .str _, .bool _ | .str _, .num _ | .str _, .arr _ | .str _, .obj _ => by
    simp [jbeq]
  | .str a, .str b => by simp [jbeq]
  | .arr _, .null | .arr _, .bool _ | .arr _, .num _ | .arr _, .str _ | .arr _, .obj _ => by
    simp [jbeq]
  | .arr xs, .arr ys => by
    simpa [jbeq] using jbeqList_iff xs ys
  | .obj _, .null | .obj _, .bool _ | .obj _, .num _ | .obj _, .str _ | .obj _, .arr _ => by
    simp [jbeq]
  | .obj xs, .obj ys => by
    simpa [jbeq] using jbeqObj_iff xs ys

theorem jbeqList_iff : ∀ xs ys : List JValue, jbeqList xs ys = true ↔ xs = ys
  | [], [] => by simp [jbeqList]
  | [], _ :: _ => by simp [jbeqList]
  | _ :: _, [] => by simp [jbeqList]
  | x :: xs, y :: ys => by
    simp [jbeqList, jbeq_iff x y, jbeqList_iff xs ys]

theorem jbeqObj_iff :
    ∀ xs ys : List (String × JValue), jbeqObj xs ys = true ↔ xs = ys
  | [], [] => by simp [jbeqObj]
  | [], _ :: _ => by simp [jbeqObj]
  | _ :: _, [] => by simp [jbeqObj]
  | (k, v) :: xs, (l, w) :: ys => by
    simp [jbeqObj, jbeq_iff v w, jbeqObj_iff xs ys, Prod.ext_iff, and_assoc]

end

instance : DecidableEq JValue := fun a b =>
  decidable_of_iff (jbeq a b = true) (jbeq_iff a b)

namespace JValue

/-- Python `d.get(key, default)` on a dict value: first binding of `key`
(dict keys are unique, so first = only). Non-dict values have no `.get`;
such calls never occur on the paths the theorems quantify over, and are
modelled as returning the default. -/
def getD (j : JValue) (key : String) (dflt : JValue) : JValue :=
  match j with
  | .obj kvs =>
    match kvs.find? (fun kv => kv.1 == key) with
    | some kv => kv.2
    | none => dflt
  | _ => dflt

/-- Python truthiness (`if not schema_structure`, `if metadata_filter` …). -/
def isTruthy : JValue → Bool
  | .null => false
  | .bool b => b
  | .num q => q != 0
  | .str s => s != ""
  | .arr xs => !xs.isEmpty
  | .obj kvs => !kvs.isEmpty

end JValue

/-- Python list indexing `xs[i]` for `int` i: non-negative indices are
absolute, negative indices count from the end; out of range raises
(modelled as `none`). -/
def pyGet? {α : Type} (xs : List α) (i : Int) : Option α :=
  if 0 ≤ i then xs.get? i.toNat
  else if 0 ≤ (xs.length : Int) + i then xs.get? ((xs.length : Int) + i).toNat
  else none

/-- Truthiness of the `Optional[str]` parameter `chunk_type`
(`None` and `""` are falsy). -/
def strOptTruthy : Option String → Bool
  | none => false
  | some s => s != ""

/-- Truthiness of the `Optional[Dict]` parameter `metadata_filter`
(`None` and `{}` are falsy). -/
def filterOptTruthy : Option (List (String × JValue)) → Bool
  | none => false
  | some fd => !fd.isEmpty

/-- One entry of the result list of `EnhancedVectorStore.search`
(the dict appended at `enhanced_vector_store.py` lines 264-271). -/
structure SearchHit where
  chunk : JValue
  score : ℚ
  distance : ℚ
  chunk_id : JValue
  chunk_type : JValue
  metadata : JValue
  deriving DecidableEq

/-- Python `metadata[key]` guarded by `key in metadata` on a dict value:
the stored value at `key`, or `none` when the key (or a dict) is absent. -/
def JValue.lookup? (j : JValue) (key : String) : Option JValue :=
  match j with
  | .obj kvs => (kvs.find? (fun kv => kv.1 == key)).map Prod.snd
  | _ => none

/-- `EnhancedVectorStore._matches_filter` (lines 330-337): every key of
`filter_dict` must be present in `metadata` with an equal value. -/
def _matches_filter (metadata : JValue) (filter_dict : List (String × JValue)) : Bool :=
  filter_dict.all fun kv =>
    match metadata with
    | .obj kvs =>
      match kvs.find? (fun p => p.1 == kv.1) with
      | some p => jbeq p.2 kv.2
      | none => false
    | _ => false

/-- The result dict appended for a kept row of the `search` result loop
(lines 260-271): the chunk, the similarity score `1/(1+distance)`, the raw
distance, and the projected id/type/metadata fields. -/
def mkHit (chunk md : JValue) (dist : ℚ) : SearchHit :=
  { chunk := chunk
    score := 1 / (1 + dist)
    distance := dist
    chunk_id := chunk.getD "chunk_id" .null
    chunk_type := chunk.getD "chunk_type" .null
    metadata := md.getD "metadata" (.obj []) }

/-- The result-building loop of `EnhancedVectorStore.search` (lines 244-274):
iterate over the `(idx, distance)` rows FAISS returned, skip rows with
`idx >= len(self.chunks)`, fetch `self.chunks[idx]` / `self.chunk_metadata[idx]`
by Python indexing (an out-of-range fetch raises: `none`), apply the
chunk-type and metadata post-filters, score each kept row `1/(1+distance)`,
and break once `len(results) >= k`. `count` is `len(results)` so far. -/
def search_loop (chunks chunk_metadata : List JValue) (k : Nat)
    (chunk_type : Option String) (metadata_filter : Option (List (String × JValue))) :
    List (Int × ℚ) → Nat → Option (List SearchHit)
  | [], _ => some []
  | (idx, dist) :: rest, count =>
    if (chunks.length : Int) ≤ idx then
      search_loop chunks chunk_metadata k chunk_type metadata_filter rest count
    else
      match pyGet? chunks idx, pyGet? chunk_metadata idx with
      | some chunk, some md =>
        if strOptTruthy chunk_type &&
            !(jbeq (chunk.getD "chunk_type" .null) (.str (chunk_type.getD ""))) then
          search_loop chunks chunk_metadata k chunk_type metadata_filter rest count
        else if filterOptTruthy metadata_filter &&
            !(_matches_filter (md.getD "metadata" (.obj [])) (metadata_filter.getD [])) then
          search_loop chunks chunk_metadata k chunk_type metadata_filter rest count
        else if k ≤ count + 1 then some [mkHit chunk md dist]
        else
          (search_loop chunks chunk_metadata k chunk_type metadata_filter rest
            (count + 1)).map (mkHit chunk md dist :: ·)
      | _, _ => none

/-- `EnhancedVectorStore.search` (lines 209-277) after the index/model
checks and query embedding. The FAISS call `self.index.search(...)` is an
external library call; its reply — the rows of `zip(indices[0], distances[0])`,
in order — is the `ann` argument. -/
def search (chunks chunk_metadata : List JValue) (ann : List (Int × ℚ)) (k : Nat)
    (chunk_type : Option String) (metadata_filter : Option (List (String × JValue))) :
    Option (List SearchHit) :=
  search_loop chunks chunk_metadata k chunk_type metadata_filter ann 0

/-- The over-provisioned fan-out of `search` (line 240):
`search_k = k * 10 if (chunk_type or metadata_filter) else k`. -/
def search_k (k : Nat) (chunk_type : Option String)
    (metadata_filter : Option (List (String × JValue))) : Nat :=
  if strOptTruthy chunk_type || filterOptTruthy metadata_filter then k * 10 else k

/-- FAISS `IndexFlatL2.search(q, n)` asked for more rows than the index
holds pads the reply: the true neighbours come first and every remaining
row holds index `-1` (with a sentinel distance). External library
behaviour, used to build concrete FAISS replies. -/
def faissPad (realRows : List (Int × ℚ)) (n : Nat) (padDist : ℚ) : List (Int × ℚ) :=
  realRows ++ List.replicate (n - realRows.length) (-1, padDist)

/-- The store state `build_index` establishes: `self.chunks`,
`self.chunk_metadata`, and the FAISS index's vector count `ntotal`. -/
structure VectorStoreState where
  chunks : List JValue
  chunk_metadata : List JValue
  indexNtotal : Nat
  deriving DecidableEq

/-- The metadata entry built for one chunk
(`build_index`, lines 139-148). -/
def metaEntry (chunk : JValue) : JValue :=
  .obj [("chunk_id", chunk.getD "chunk_id" .null),
        ("chunk_type", chunk.getD "chunk_type" .null),
        ("metadata", chunk.getD "metadata" (.obj [])),
        ("keywords", chunk.getD "keywords" (.arr [])),
        ("tags", chunk.getD "tags" (.arr []))]

/-- `EnhancedVectorStore.build_index` (lines 107-150): embed every chunk's
`searchable_text` (one vector per text — `encode` is the external
sentence-transformer model), add all vectors to a fresh `IndexFlatL2`
(so `ntotal` is the number of added vectors), and store the chunk list
and the derived metadata list. -/
def build_index (encode : JValue → List ℚ) (chunks : List JValue) : VectorStoreState :=
  let texts := chunks.map (fun chunk => chunk.getD "searchable_text" (.str ""))
  let embeddings := texts.map encode
  { chunks := chunks
    chunk_metadata := chunks.map metaEntry
    indexNtotal := embeddings.length }

/-- Python `analysis.get(key, "")` on the analysis dict; the fields read
(`"intent"`, `"layout_type"`) are strings of the `QueryAnalysis` schema,
so the dict is modelled string-valued. A missing key yields `""`. -/
def aGetD (a : List (String × String)) (key : String) : String :=
  ((a.find? (fun p => p.1 == key)).map Prod.snd).getD ""

/-- `EnhancedVectorStore.multi_stage_search` (lines 279-328). `doSearch q k ct`
abstracts `self.search(query=q, k=k, chunk_type=ct)` on the current store
(no `metadata_filter` is ever passed here). The returned association list
models the Python result dict in key-insertion order: `"intent_mappings"`
is appended only when `analysis` is truthy and `analysis.get("intent")`
is truthy. -/
def multi_stage_search (doSearch : String → Nat → Option String → List SearchHit)
    (query : String) (analysis : Option (List (String × String)))
    (k_per_stage : Nat) : List (String × List SearchHit) :=
  let query_examples := doSearch query k_per_stage (some "query_layout_pair")
  let pattern_query :=
    match analysis with
    | some a =>
      if !a.isEmpty then
        query ++ " " ++ aGetD a "intent" ++ " " ++ aGetD a "layout_type"
      else query
    | none => query
  let patterns := doSearch pattern_query k_per_stage (some "ui_pattern")
  let base := [("query_examples", query_examples), ("patterns", patterns)]
  match analysis with
  | some a =>
    if !a.isEmpty && aGetD a "intent" != "" then
      base ++ [("intent_mappings",
        doSearch (aGetD a "intent") 2 (some "intent_pattern_mapping"))]
    else base
  | none => base

/-- Python `results.get(key, [])` on the multi-stage result dict. -/
def stageGetD (results : List (String × List SearchHit)) (key : String) :
    List SearchHit :=
  ((results.find? (fun p => p.1 == key)).map Prod.snd).getD []

/-- One candidate built by `CandidateRetriever._combine_and_rank`. -/
structure Candidate where
  source : String
  score : ℚ
  chunk : JValue
  metadata : JValue
  deriving DecidableEq

/-- One entry of the lists built by `_get_best_match_ui_patterns` and
`_extract_layout_schema_from_best_match_layout`. -/
structure PatternEntry where
  score : ℚ
  chunk : JValue
  metadata : JValue
  deriving DecidableEq

/-- Insert into a list sorted descending by `score`: the new element goes
after every element of score ≥ its own. -/
def insertByScoreDesc {α : Type} (score : α → ℚ) (c : α) : List α → List α
  | [] => [c]
  | x :: xs =>
    if score x < score c then c :: x :: xs else x :: insertByScoreDesc score c xs

/-- Python `list.sort(key=lambda x: x["score"], reverse=True)`: a stable
descending sort by score. Timsort is stable, and a stable sort's output is
unique (descending scores, ties in original order), so this insertion sort
is extensionally the same function. -/
def sortByScoreDesc {α : Type} (score : α → ℚ) (l : List α) : List α :=
  l.foldl (fun acc c => insertByScoreDesc score c acc) []

/-- `CandidateRetriever._combine_and_rank` (candidate_retriever.py lines
78-121): tag and weight the hits of each stage (query_examples ×1.0,
patterns ×0.9, intent_mappings ×0.8), concatenate in that priority order,
and sort descending by weighted score (stable). -/
def _combine_and_rank (results : List (String × List SearchHit)) : List Candidate :=
  let candidates :=
    (stageGetD results "query_examples").map (fun r =>
      { source := "query_example", score := r.score * 1,
        chunk := r.chunk, metadata := r.metadata : Candidate })
    ++ (stageGetD results "patterns").map (fun r =>
      { source := "ui_pattern", score := r.score * (9/10),
        chunk := r.chunk, metadata := r.metadata : Candidate })
    ++ (stageGetD results "intent_mappings").map (fun r =>
      { source := "intent_mapping", score := r.score * (8/10),
        chunk := r.chunk, metadata := r.metadata : Candidate })
  sortByScoreDesc Candidate.score candidates

/-- `CandidateRetriever._get_best_match_ui_patterns` (lines 124-147):
re-wrap the `patterns`-stage hits and sort by raw score descending. -/
def _get_best_match_ui_patterns (results : List (String × List SearchHit)) :
    List PatternEntry :=
  sortByScoreDesc PatternEntry.score
    ((stageGetD results "patterns").map (fun r =>
      { score := r.score, chunk := r.chunk, metadata := r.metadata : PatternEntry }))

/-- `CandidateRetriever._extract_schema_structure` (lines 181-191):
`layout_chunk.get("content", {}).get("schema_structure", {})`. -/
def _extract_schema_structure (layout_chunk : JValue) : JValue :=
  (layout_chunk.getD "content" (.obj [])).getD "schema_structure" (.obj [])

/-- `CandidateRetriever.get_fallback_layout` (lines 193-208): the hardcoded
fallback — the minimal `Stack`/`HtmlText` skeleton wrapped under the single
key `"schema_structure"`. -/
def get_fallback_layout : JValue :=
  .obj [("schema_structure", .obj
    [("type", .str "Stack"),
     ("props", .obj [("direction", .str "vertical"), ("gap", .num 8)]),
     ("children", .arr
       [.obj [("type", .str "HtmlText"),
              ("value", .str "<div class=\x27data-view\x27>...</div>")]])])]

/-- `CandidateRetriever._extract_layout_schema_from_best_match_layout`
(lines 149-178): re-wrap and re-sort the pattern entries, take `layouts[0]`
(raises `IndexError` on an empty list: `.error`), extract its
`content.schema_structure`, and substitute `get_fallback_layout()` when that
is falsy. The `Bool` of the result records whether the fallback
`logger.warning` was emitted. -/
def _extract_layout_schema_from_best_match_layout (patterns : List PatternEntry) :
    Except String (JValue × Bool) :=
  let layouts := sortByScoreDesc PatternEntry.score
    (patterns.map (fun r =>
      { score := r.score, chunk := r.chunk, metadata := r.metadata : PatternEntry }))
  match layouts with
  | [] => .error "IndexError: list index out of range"
  | best_layouts :: _ =>
    let schema_structure := _extract_schema_structure best_layouts.chunk
    if !schema_structure.isTruthy then .ok (get_fallback_layout, true)
    else .ok (schema_structure, false)

/-- `CandidateRetriever.retrieve` (lines 37-76). `analysis` is the dict
`analysis.model_dump()` of a `QueryAnalysis` (always a dict, never `None`);
`doSearch` abstracts the store's `search` as in `multi_stage_search`. The
merged top-k candidates are computed and dropped, exactly as in the source:
the returned value comes only from the patterns stage. `.error` models a
raised exception; the `Bool` records the fallback warning. -/
def retrieve (doSearch : String → Nat → Option String → List SearchHit)
    (query : String) (analysis : List (String × String)) (k : Nat) :
    Except String (JValue × Bool) :=
  let results := multi_stage_search doSearch query (some analysis) 3
  let candidates := _combine_and_rank results
  let top_candidates := candidates.take k
  let ui_patterns := _get_best_match_ui_patterns results
  let _ := top_candidates
  _extract_layout_schema_from_best_match_layout ui_patterns

/-! ### Concrete data used by witnesses and counterexamples -/

/-- A minimal `ui_pattern` chunk. -/
def uiPatternChunkA : JValue :=
  .obj [("chunk_id", .str "a"), ("chunk_type", .str "ui_pattern")]

/-- A second minimal `ui_pattern` chunk. -/
def uiPatternChunkB : JValue :=
  .obj [("chunk_id", .str "b"), ("chunk_type", .str "ui_pattern")]

/-- A store holding exactly two `ui_pattern` chunks (Scenario C). -/
def scenarioChunks : List JValue := [uiPatternChunkA, uiPatternChunkB]

/-- The metadata side-table `build_index` derives for `scenarioChunks`. -/
def scenarioMeta : List JValue := scenarioChunks.map metaEntry

/-- A `ui_pattern` chunk carrying a `metadata` dict. -/
def metadataChunk : JValue :=
  .obj [("chunk_id", .str "m"), ("chunk_type", .str "ui_pattern"),
        ("metadata", .obj [("layout_type", .str "list")])]

/-- A pattern chunk whose `content.schema_structure` is the empty dict
(Scenario B). -/
def emptySchemaPatternChunk : JValue :=
  .obj [("chunk_id", .str "p1"), ("chunk_type", .str "ui_pattern"),
        ("content", .obj [("schema_structure", .obj [])])]

/-- A pattern-stage hit on `emptySchemaPatternChunk`. -/
def emptySchemaPatternHit : SearchHit :=
  { chunk := emptySchemaPatternChunk
    score := 1/2
    distance := 1
    chunk_id := .str "p1"
    chunk_type := .str "ui_pattern"
    metadata := .obj [] }

/-- A store-search stub whose `ui_pattern` stage returns exactly the one
hit on `emptySchemaPatternChunk` and whose other stages are empty. -/
def emptySchemaPatternSearch : String → Nat → Option String → List SearchHit :=
  fun _ _ ct => if ct = some "ui_pattern" then [emptySchemaPatternHit] else []

/-- FAISS pads unfilled reply rows of an `IndexFlatL2` with distance
`FLT_MAX`. -/
def faissPadDistance : ℚ := 340282346638528859811704183484516925440

/-! ### Helper lemmas -/

/-- The `patterns` entry of the multi-stage result dict is the search on
the (possibly augmented) pattern query, whatever the `intent_mappings`
gate decides. -/
theorem multi_stage_patterns_eq
    (doSearch : String → Nat → Option String → List SearchHit)
    (query : String) (analysis : Option (List (String × String))) (kps : Nat) :
    stageGetD (multi_stage_search doSearch query analysis kps) "patterns" =
      doSearch
        (match analysis with
          | some a =>
            if !a.isEmpty then
              query ++ " " ++ aGetD a "intent" ++ " " ++ aGetD a "layout_type"
            else query
          | none => query)
        kps (some "ui_pattern") := by
  cases analysis with
  | none => simp [multi_stage_search, stageGetD, List.find?]
  | some a =>
    simp only [multi_stage_search, stageGetD]
    split
    · simp [List.find?]
    · simp [List.find?]

/-- `_extract_layout_schema_from_best_match_layout` on an empty pattern
list raises `IndexError` (`layouts[0]` on `[]`). -/
theorem extract_layout_nil :
    _extract_layout_schema_from_best_match_layout [] =
      .error "IndexError: list index out of range" := rfl

/-! ### Claims -/

/-- C1: the claim states that `retrieve` against an empty or unpopulated
index (any situation where the multi-stage `patterns` stage is empty) never
raises and returns the fallback skeleton. The code does the opposite:
`_extract_layout_schema_from_best_match_layout` evaluates `layouts[0]` on
the empty list and raises `IndexError`, so `retrieve` propagates an
exception instead of the fallback. -/
theorem C1_retrieve_raises_when_patterns_stage_empty
    (doSearch : String → Nat → Option String → List SearchHit)
    (query : String) (analysis : List (String × String)) (k : Nat)
    (h : ∀ q n, doSearch q n (some "ui_pattern") = []) :
    retrieve doSearch query analysis k =
      .error "IndexError: list index out of range" := by
  have hp := multi_stage_patterns_eq doSearch query (some analysis) 3
  rw [h] at hp
  simp only [retrieve, _get_best_match_ui_patterns, hp, List.map_nil]
  exact extract_layout_nil

/-- C1 witness: the concrete empty-index search (every stage empty)
makes `retrieve` raise. -/
theorem C1_witness :
    retrieve (fun _ _ _ => []) "show me all leads" [] 5 =
      .error "IndexError: list index out of range" :=
  C1_retrieve_raises_when_patterns_stage_empty (fun _ _ _ => [])
    "show me all leads" [] 5 (fun _ _ => rfl)

/-- C2 counterexample: with the best-matching pattern chunk carrying an
empty `content.schema_structure`, `retrieve` does not return the claimed
map with top-level `type: "Stack"`: it returns `get_fallback_layout()`,
whose only top-level key is `"schema_structure"` (there is no `"type"`
key at all). -/
theorem C2_counterexample :
    retrieve emptySchemaPatternSearch "show leads" [] 5 =
      .ok (get_fallback_layout, true) ∧
    get_fallback_layout.getD "type" JValue.null = JValue.null := by
  constructor
  · rfl
  · rfl

/-- When the re-sorted layout list is non-empty and its head — the
`layouts[0]` the code selects as best match — has a falsy
`content.schema_structure`, the extraction returns the fallback wrapper
and logs the warning. -/
theorem extract_layout_fallback (patterns : List PatternEntry)
    (best : PatternEntry) (rest : List PatternEntry)
    (hbest : sortByScoreDesc PatternEntry.score
      (patterns.map (fun r =>
        { score := r.score, chunk := r.chunk, metadata := r.metadata })) =
      best :: rest)
    (hss : (_extract_schema_structure best.chunk).isTruthy = false) :
    _extract_layout_schema_from_best_match_layout patterns =
      .ok (get_fallback_layout, true) := by
  have hmap : patterns.map (fun r : PatternEntry =>
      ({ score := r.score, chunk := r.chunk, metadata := r.metadata } :
        PatternEntry)) = patterns := by
    simp
  rw [hmap] at hbest
  simp [_extract_layout_schema_from_best_match_layout, hbest, hss]

/-- C2 (amended): for every call to `retrieve` — any store search, query,
analysis dict and `k`, any number of hits per stage — where the
best-matching pattern chunk (the head `layouts[0]` of the score-sorted
`patterns`-stage entries) has a missing or empty
`content.schema_structure`, the value returned is `get_fallback_layout()`
— the fixed Stack/HtmlText skeleton wrapped under the single top-level key
`"schema_structure"`, not the bare skeleton — it is not an empty object,
and the fallback warning is emitted. -/
theorem C2_fallback_wrapper_returned
    (doSearch : String → Nat → Option String → List SearchHit)
    (query : String) (analysis : List (String × String)) (k : Nat)
    (best : PatternEntry) (rest : List PatternEntry)
    (hbest : sortByScoreDesc PatternEntry.score
      ((_get_best_match_ui_patterns
          (multi_stage_search doSearch query (some analysis) 3)).map
        (fun r =>
          { score := r.score, chunk := r.chunk, metadata := r.metadata })) =
      best :: rest)
    (hss : (_extract_schema_structure best.chunk).isTruthy = false) :
    retrieve doSearch query analysis k = .ok (get_fallback_layout, true) ∧
    get_fallback_layout ≠ JValue.obj [] := by
  refine ⟨?_, by decide⟩
  show _extract_layout_schema_from_best_match_layout
      (_get_best_match_ui_patterns
        (multi_stage_search doSearch query (some analysis) 3)) =
    .ok (get_fallback_layout, true)
  exact extract_layout_fallback _ best rest hbest hss

/-- A store search with a two-hit `ui_pattern` stage — the higher-scored
hit (distance 1, score 1/2) on the empty-schema pattern chunk, the
lower-scored one (distance 3, score 1/4) on an ordinary chunk — and a
non-empty `query_layout_pair` stage. -/
def twoPatternSearch : String → Nat → Option String → List SearchHit :=
  fun _ _ ct =>
    if ct = some "ui_pattern" then
      [mkHit emptySchemaPatternChunk (metaEntry emptySchemaPatternChunk) 1,
       mkHit uiPatternChunkB (metaEntry uiPatternChunkB) 3]
    else if ct = some "query_layout_pair" then
      [mkHit uiPatternChunkA (metaEntry uiPatternChunkA) 1]
    else []

/-- The two pattern entries the store above yields, scored `1/(1+1)` and
`1/(1+3)` — already in descending score order. -/
theorem twoPatternSearch_sorted :
    sortByScoreDesc PatternEntry.score
      [⟨1/(1+1), emptySchemaPatternChunk, JValue.obj []⟩,
       ⟨1/(1+3), uiPatternChunkB, JValue.obj []⟩] =
      [⟨1/(1+1), emptySchemaPatternChunk, JValue.obj []⟩,
       ⟨1/(1+3), uiPatternChunkB, JValue.obj []⟩] := by
  have hlt : ¬ ((1 : ℚ)/(1+1) < 1/(1+3)) := by norm_num
  simp [sortByScoreDesc, insertByScoreDesc, hlt]
  norm_num

/-- C2 witness: the amended claim at a concrete Scenario-B call whose
pattern stage holds two hits (the empty-schema chunk winning the sort)
and whose query-example stage is non-empty. -/
theorem C2_witness :
    retrieve twoPatternSearch "show leads" [("intent", "view_list")] 5 =
      .ok (get_fallback_layout, true) ∧
    get_fallback_layout ≠ JValue.obj [] :=
  C2_fallback_wrapper_returned twoPatternSearch "show leads"
    [("intent", "view_list")] 5
    ⟨1/(1+1), emptySchemaPatternChunk, .obj []⟩
    [⟨1/(1+3), uiPatternChunkB, .obj []⟩]
    (by
      have hget : _get_best_match_ui_patterns
          (multi_stage_search twoPatternSearch "show leads"
            (some [("intent", "view_list")]) 3) =
          [⟨1/(1+1), emptySchemaPatternChunk, JValue.obj []⟩,
           ⟨1/(1+3), uiPatternChunkB, JValue.obj []⟩] := by
        rw [show _get_best_match_ui_patterns
            (multi_stage_search twoPatternSearch "show leads"
              (some [("intent", "view_list")]) 3) =
          sortByScoreDesc PatternEntry.score
            [⟨1/(1+1), emptySchemaPatternChunk, JValue.obj []⟩,
             ⟨1/(1+3), uiPatternChunkB, JValue.obj []⟩] from rfl]
        exact twoPatternSearch_sorted
      rw [hget]
      simpa using twoPatternSearch_sorted)
    (by decide)

/-- C3: with exactly one hit of raw score 0.5 in each of the three stages,
`_combine_and_rank` applies the fixed multipliers ×1.0, ×0.9, ×0.8 and the
stable descending sort returns the query_example candidate (weighted 0.5)
first, then the ui_pattern candidate (0.45), then the intent_mapping
candidate (0.4). -/
theorem C3_priority_ordering (h1 h2 h3 : SearchHit)
    (e1 : h1.score = 1/2) (e2 : h2.score = 1/2) (e3 : h3.score = 1/2) :
    _combine_and_rank
      [("query_examples", [h1]), ("patterns", [h2]), ("intent_mappings", [h3])] =
      [{ source := "query_example", score := 1/2,
         chunk := h1.chunk, metadata := h1.metadata },
       { source := "ui_pattern", score := 9/20,
         chunk := h2.chunk, metadata := h2.metadata },
       { source := "intent_mapping", score := 2/5,
         chunk := h3.chunk, metadata := h3.metadata }] := by
  simp [_combine_and_rank, stageGetD, List.find?, sortByScoreDesc, e1, e2, e3]
  norm_num [insertByScoreDesc]

/-- A hit of raw score 0.5 on chunk `c`, used by concrete witnesses. -/
def halfScoreHit (cid : String) (c : JValue) (ct : String) : SearchHit :=
  { chunk := c
    score := 1/2
    distance := 1
    chunk_id := .str cid
    chunk_type := .str ct
    metadata := .obj [] }

/-- C3 witness: the ordering at three concrete hits of raw score 0.5. -/
theorem C3_witness :
    _combine_and_rank
      [("query_examples", [halfScoreHit "a" uiPatternChunkA "query_layout_pair"]),
       ("patterns", [halfScoreHit "b" uiPatternChunkB "ui_pattern"]),
       ("intent_mappings", [halfScoreHit "m" metadataChunk "intent_pattern_mapping"])] =
      [{ source := "query_example", score := 1/2,
         chunk := uiPatternChunkA, metadata := .obj [] },
       { source := "ui_pattern", score := 9/20,
         chunk := uiPatternChunkB, metadata := .obj [] },
       { source := "intent_mapping", score := 2/5,
         chunk := metadataChunk, metadata := .obj [] }] :=
  C3_priority_ordering _ _ _ rfl rfl rfl

/-- The metadata entry derived for a chunk carries the chunk's own
`chunk_id`. -/
theorem metaEntry_chunk_id (c : JValue) :
    (metaEntry c).getD "chunk_id" JValue.null = c.getD "chunk_id" JValue.null := rfl

/-- C4: after every successful build over a non-empty chunk list, the
number of stored chunks equals the index's vector count, the metadata list
has the same length, and the metadata entry at every position `i` carries
the same `chunk_id` as the chunk at `i`. -/
theorem C4_build_alignment (encode : JValue → List ℚ) (chunks : List JValue)
    (hne : chunks ≠ []) :
    (build_index encode chunks).chunks.length =
      (build_index encode chunks).indexNtotal ∧
    (build_index encode chunks).chunk_metadata.length =
      (build_index encode chunks).chunks.length ∧
    ∀ i : Nat,
      ((build_index encode chunks).chunk_metadata.get? i).map
          (fun m => m.getD "chunk_id" JValue.null) =
        ((build_index encode chunks).chunks.get? i).map
          (fun c => c.getD "chunk_id" JValue.null) := by
  refine ⟨by simp [build_index], by simp [build_index], fun i => ?_⟩
  simp only [build_index, List.get?_map]
  cases hg : chunks.get? i with
  | none => simp
  | some c => simp [metaEntry_chunk_id]

/-- C4 witness: alignment after building over the concrete two-chunk
store. -/
theorem C4_witness :
    (build_index (fun _ => [0]) scenarioChunks).chunks.length =
      (build_index (fun _ => [0]) scenarioChunks).indexNtotal ∧
    (build_index (fun _ => [0]) scenarioChunks).chunk_metadata.length =
      (build_index (fun _ => [0]) scenarioChunks).chunks.length ∧
    ∀ i : Nat,
      ((build_index (fun _ => [0]) scenarioChunks).chunk_metadata.get? i).map
          (fun m => m.getD "chunk_id" JValue.null) =
        ((build_index (fun _ => [0]) scenarioChunks).chunks.get? i).map
          (fun c => c.getD "chunk_id" JValue.null) :=
  C4_build_alignment (fun _ => [0]) scenarioChunks (by decide)

/-- C8: with `analysis` absent or carrying an empty intent,
`multi_stage_search` returns a map without the `intent_mappings` key at
all, the `query_examples` and `patterns` keys are present, and the call
is total (no crash on the missing intent field). -/
theorem C8_stage_gating (doSearch : String → Nat → Option String → List SearchHit)
    (query : String) (k_per_stage : Nat)
    (analysis : Option (List (String × String)))
    (h : analysis = none ∨ ∃ a, analysis = some a ∧ aGetD a "intent" = "") :
    ((multi_stage_search doSearch query analysis k_per_stage).find?
        (fun p => p.1 == "intent_mappings")) = none ∧
    ((multi_stage_search doSearch query analysis k_per_stage).find?
        (fun p => p.1 == "query_examples")).isSome = true ∧
    ((multi_stage_search doSearch query analysis k_per_stage).find?
        (fun p => p.1 == "patterns")).isSome = true := by
  rcases h with rfl | ⟨a, rfl, hint⟩
  · simp [multi_stage_search, List.find?]
  · simp [multi_stage_search, List.find?, hint]

/-- C8 witness: the gating at `analysis = None`. -/
theorem C8_witness :
    ((multi_stage_search (fun _ _ _ => []) "show all leads" none 3).find?
        (fun p => p.1 == "intent_mappings")) = none ∧
    ((multi_stage_search (fun _ _ _ => []) "show all leads" none 3).find?
        (fun p => p.1 == "query_examples")).isSome = true ∧
    ((multi_stage_search (fun _ _ _ => []) "show all leads" none 3).find?
        (fun p => p.1 == "patterns")).isSome = true :=
  C8_stage_gating (fun _ _ _ => []) "show all leads" 3 none (Or.inl rfl)

/-- A store-search stub that records the query text it is given in the
hit's chunk, used to observe which query a stage passes down. -/
def probeSearch : String → Nat → Option String → List SearchHit :=
  fun q _ _ =>
    [{ chunk := .str q
       score := 1
       distance := 0
       chunk_id := .null
       chunk_type := .null
       metadata := .obj [] }]

/-- C9: with a supplied non-empty analysis dict, the `patterns` stage
searches exactly the space-joined `query ++ " " ++ intent ++ " " ++
layout_type` (a missing `intent`/`layout_type` interpolating as `""`);
with no analysis, the stage searches the raw query. -/
theorem C9_pattern_query_augmentation
    (doSearch : String → Nat → Option String → List SearchHit)
    (query : String) (k_per_stage : Nat) (a : List (String × String))
    (ha : a ≠ []) :
    stageGetD (multi_stage_search doSearch query (some a) k_per_stage)
        "patterns" =
      doSearch (query ++ " " ++ aGetD a "intent" ++ " " ++ aGetD a "layout_type")
        k_per_stage (some "ui_pattern") ∧
    stageGetD (multi_stage_search doSearch query none k_per_stage) "patterns" =
      doSearch query k_per_stage (some "ui_pattern") ∧
    (∀ key, a.find? (fun p => p.1 == key) = none → aGetD a key = "") := by
  refine ⟨?_, ?_, ?_⟩
  · rw [multi_stage_patterns_eq]
    cases a with
    | nil => exact absurd rfl ha
    | cons x xs => simp [List.isEmpty]
  · rw [multi_stage_patterns_eq]
  · intro key hk
    simp [aGetD, hk]

/-- C9 witness: the augmented pattern query at a concrete analysis dict
(missing `layout_type`, so a blank is interpolated), observed through
`probeSearch`. -/
theorem C9_witness :
    stageGetD (multi_stage_search probeSearch "show leads"
        (some [("intent", "view_list")]) 3) "patterns" =
      probeSearch ("show leads" ++ " " ++ aGetD [("intent", "view_list")] "intent"
          ++ " " ++ aGetD [("intent", "view_list")] "layout_type")
        3 (some "ui_pattern") ∧
    stageGetD (multi_stage_search probeSearch "show leads" none 3) "patterns" =
      probeSearch "show leads" 3 (some "ui_pattern") ∧
    (∀ key, ([("intent", "view_list")] : List (String × String)).find?
        (fun p => p.1 == key) = none →
      aGetD [("intent", "view_list")] key = "") :=
  C9_pattern_query_augmentation probeSearch "show leads" 3
    [("intent", "view_list")] (by decide)

/-- Every hit the search loop emits was scored `1/(1+distance)` and passed
the active chunk-type and metadata post-filters. -/
theorem search_loop_mem (chunks chunk_metadata : List JValue) (k : Nat)
    (ct : Option String) (mf : Option (List (String × JValue))) :
    ∀ (pairs : List (Int × ℚ)) (count : Nat) (hits : List SearchHit),
      search_loop chunks chunk_metadata k ct mf pairs count = some hits →
      ∀ hit ∈ hits,
        hit.score = 1 / (1 + hit.distance) ∧
        (strOptTruthy ct = true →
          jbeq (hit.chunk.getD "chunk_type" JValue.null)
            (.str (ct.getD "")) = true) ∧
        (filterOptTruthy mf = true →
          _matches_filter hit.metadata (mf.getD []) = true) := by
  intro pairs
  induction pairs with
  | nil =>
    intro count hits h hit hmem
    simp only [search_loop, Option.some.injEq] at h
    subst h
    simp at hmem
  | cons pd rest ih =>
    obtain ⟨idx, dist⟩ := pd
    intro count hits h hit hmem
    rw [search_loop] at h
    by_cases hguard : ((chunks.length : Int) ≤ idx)
    · rw [if_pos hguard] at h
      exact ih count hits h hit hmem
    · rw [if_neg hguard] at h
      rcases hc : pyGet? chunks idx with _ | chunk <;>
        rcases hm : pyGet? chunk_metadata idx with _ | md <;>
          simp only [hc, hm] at h <;>
            try exact Option.noConfusion h
      by_cases hct : (strOptTruthy ct &&
          !(jbeq (chunk.getD "chunk_type" JValue.null)
            (JValue.str (ct.getD "")))) = true
      · rw [if_pos hct] at h
        exact ih count hits h hit hmem
      · rw [if_neg hct] at h
        by_cases hmf : (filterOptTruthy mf &&
            !(_matches_filter (md.getD "metadata" (JValue.obj []))
              (mf.getD []))) = true
        · rw [if_pos hmf] at h
          exact ih count hits h hit hmem
        · rw [if_neg hmf] at h
          by_cases hbrk : k ≤ count + 1
          · rw [if_pos hbrk] at h
            obtain rfl : [mkHit chunk md dist] = hits := Option.some.inj h
            obtain rfl : hit = mkHit chunk md dist := List.mem_singleton.mp hmem
            refine ⟨rfl, ?_, ?_⟩
            · intro hs
              by_contra hb
              rw [Bool.not_eq_true] at hb
              exact hct (by simp [mkHit] at hb ⊢; simp [hs, hb])
            · intro hs
              by_contra hb
              rw [Bool.not_eq_true] at hb
              exact hmf (by simp [mkHit] at hb ⊢; simp [hs, hb])
          · rw [if_neg hbrk, Option.map_eq_some'] at h
            obtain ⟨tl, hrec, rfl⟩ := h
            rcases List.mem_cons.mp hmem with rfl | hmem'
            · refine ⟨rfl, ?_, ?_⟩
              · intro hs
                by_contra hb
                rw [Bool.not_eq_true] at hb
                exact hct (by simp [mkHit] at hb ⊢; simp [hs, hb])
              · intro hs
                by_contra hb
                rw [Bool.not_eq_true] at hb
                exact hmf (by simp [mkHit] at hb ⊢; simp [hs, hb])
            · exact ih _ _ hrec hit hmem'

/-- A passed metadata filter means every filter key is present in the
hit's metadata with an equal value. -/
theorem matches_filter_lookup (md : JValue) (fd : List (String × JValue))
    (h : _matches_filter md fd = true) :
    ∀ kv ∈ fd, md.lookup? kv.1 = some kv.2 := by
  intro kv hkv
  have hall := List.all_eq_true.mp h kv hkv
  cases md with
  | null => simp at hall
  | bool b => simp at hall
  | num q => simp at hall
  | str s => simp at hall
  | arr xs => simp at hall
  | obj kvs =>
    simp only at hall
    cases hfind : kvs.find? (fun p => p.1 == kv.1) with
    | none => rw [hfind] at hall; cases hall
    | some p =>
      rw [hfind] at hall
      have hv := (jbeq_iff _ _).mp hall
      simp [JValue.lookup?, hfind, hv]

/-- C5: every hit of `search` carries the score `1/(1+distance)`; the
transform is strictly decreasing in the distance (a strictly smaller
distance gives a strictly greater similarity) and, for non-negative
distances, the score lies in `(0, 1]`. -/
theorem C5_score_formula_and_monotonicity (chunks cm : List JValue)
    (ann : List (Int × ℚ)) (k : Nat) (ct : Option String)
    (mf : Option (List (String × JValue))) (hits : List SearchHit)
    (hs : search chunks cm ann k ct mf = some hits) :
    (∀ hit ∈ hits, hit.score = 1 / (1 + hit.distance)) ∧
    (∀ h1 ∈ hits, ∀ h2 ∈ hits, 0 ≤ h1.distance → h1.distance < h2.distance →
      h2.score < h1.score) ∧
    (∀ hit ∈ hits, 0 ≤ hit.distance → 0 < hit.score ∧ hit.score ≤ 1) := by
  have key := search_loop_mem chunks cm k ct mf ann 0 hits hs
  refine ⟨fun hit hm => (key hit hm).1, ?_, ?_⟩
  · intro h1 hm1 h2 hm2 hd0 hlt
    rw [(key h1 hm1).1, (key h2 hm2).1]
    exact one_div_lt_one_div_of_lt (by linarith) (by linarith)
  · intro hit hm hd0
    rw [(key hit hm).1]
    exact ⟨one_div_pos.mpr (by linarith), by rw [div_le_one (by linarith)]; linarith⟩

/-- C5 witness: the formula, monotonicity and range at a concrete search
producing two hits at distances 1 and 3. -/
theorem C5_witness :
    (∀ hit ∈ [mkHit uiPatternChunkA (metaEntry uiPatternChunkA) 1,
              mkHit uiPatternChunkB (metaEntry uiPatternChunkB) 3],
      hit.score = 1 / (1 + hit.distance)) ∧
    (∀ h1 ∈ [mkHit uiPatternChunkA (metaEntry uiPatternChunkA) 1,
             mkHit uiPatternChunkB (metaEntry uiPatternChunkB) 3],
      ∀ h2 ∈ [mkHit uiPatternChunkA (metaEntry uiPatternChunkA) 1,
              mkHit uiPatternChunkB (metaEntry uiPatternChunkB) 3],
      0 ≤ h1.distance → h1.distance < h2.distance → h2.score < h1.score) ∧
    (∀ hit ∈ [mkHit uiPatternChunkA (metaEntry uiPatternChunkA) 1,
              mkHit uiPatternChunkB (metaEntry uiPatternChunkB) 3],
      0 ≤ hit.distance → 0 < hit.score ∧ hit.score ≤ 1) :=
  C5_score_formula_and_monotonicity scenarioChunks scenarioMeta
    [(0, 1), (1, 3)] 2 none none
    [mkHit uiPatternChunkA (metaEntry uiPatternChunkA) 1,
     mkHit uiPatternChunkB (metaEntry uiPatternChunkB) 3] (by rfl)

/-- C6: when `search` is called with a chunk-type filter `T`, every
returned hit's chunk has `chunk_type == T`; when a metadata filter is
given, every returned hit's metadata contains each filter key with an
equal value. -/
theorem C6_filter_correctness (chunks cm : List JValue) (ann : List (Int × ℚ))
    (k : Nat) (ct : Option String) (mf : Option (List (String × JValue)))
    (hits : List SearchHit)
    (hs : search chunks cm ann k ct mf = some hits) :
    (∀ T, ct = some T → T ≠ "" → ∀ hit ∈ hits,
      hit.chunk.getD "chunk_type" JValue.null = .str T) ∧
    (∀ fd, mf = some fd → fd ≠ [] → ∀ hit ∈ hits, ∀ kv ∈ fd,
      hit.metadata.lookup? kv.1 = some kv.2) := by
  have key := search_loop_mem chunks cm k ct mf ann 0 hits hs
  constructor
  · rintro T rfl hT hit hm
    have h2 := (key hit hm).2.1 (by simp [strOptTruthy, bne_iff_ne, hT])
    have := (jbeq_iff _ _).mp h2
    simpa using this
  · rintro fd rfl hfd hit hm kv hkv
    refine matches_filter_lookup _ _ ?_ kv hkv
    have h3 := (key hit hm).2.2 (by
      cases fd with
      | nil => exact absurd rfl hfd
      | cons x xs => simp [filterOptTruthy, List.isEmpty])
    simpa using h3

/-- A search hit on `metadataChunk` at distance 1. -/
def metadataHit : SearchHit := mkHit metadataChunk (metaEntry metadataChunk) 1

/-- C6 witness: both filter postconditions at a concrete filtered search
returning one hit. -/
theorem C6_witness :
    (∀ T, (some "ui_pattern" : Option String) = some T → T ≠ "" →
      ∀ hit ∈ [metadataHit],
        hit.chunk.getD "chunk_type" JValue.null = .str T) ∧
    (∀ fd, (some [("layout_type", JValue.str "list")] :
        Option (List (String × JValue))) = some fd → fd ≠ [] →
      ∀ hit ∈ [metadataHit], ∀ kv ∈ fd,
        hit.metadata.lookup? kv.1 = some kv.2) :=
  C6_filter_correctness [metadataChunk] [metaEntry metadataChunk] [(0, 1)] 5
    (some "ui_pattern") (some [("layout_type", JValue.str "list")])
    [metadataHit] (by rfl)

/-- C7: the claim (Scenario C) states that `search(query, k=5,
chunk_type_filter="ui_pattern")` over an index holding exactly 2
`ui_pattern` chunks returns exactly those 2 hits. The code diverges: the
over-provisioned fan-out is `search_k = 50 > 2` vectors, FAISS pads the
reply rows with index `-1`, the `idx >= len(chunks)` guard does not skip
them, and the call returns 5 hits — the last chunk repeated three times. -/
theorem C7_scenario_c_returns_five_hits :
    search_k 5 (some "ui_pattern") none = 50 ∧
    (search scenarioChunks scenarioMeta
        (faissPad [(0, 1/10), (1, 1/5)] (search_k 5 (some "ui_pattern") none)
          faissPadDistance)
        5 (some "ui_pattern") none).map (List.map SearchHit.chunk_id) =
      some [.str "a", .str "b", .str "b", .str "b", .str "b"] := by
  exact ⟨by decide, by decide⟩

/-- C10: the FAISS placeholder index `-1` passes the `idx >=
len(self.chunks)` guard (for no chunk list is `len(chunks) ≤ -1`), and
Python negative indexing resolves `chunks[-1]` to the last chunk of the
store, so a padded reply row emits the last chunk (and its metadata) as an
additional hit — duplicated when the last chunk was already returned, as
in the concrete two-row reply below. -/
theorem C10_minus_one_resolves_to_last_chunk (chunks : List JValue)
    (hne : chunks ≠ []) :
    ¬ ((chunks.length : Int) ≤ -1) ∧
    pyGet? chunks (-1) = some (chunks.getLast hne) ∧
    (search scenarioChunks scenarioMeta [(1, 1/5), (-1, 1/5)] 5 none none).map
        (List.map SearchHit.chunk) =
      some [uiPatternChunkB, uiPatternChunkB] := by
  have hlen : 0 < chunks.length := List.length_pos.mpr hne
  refine ⟨by omega, ?_, by decide⟩
  unfold pyGet?
  rw [if_neg (by omega), if_pos (by omega)]
  have ht : ((chunks.length : Int) + -1).toNat = chunks.length - 1 := by omega
  rw [ht, List.getLast_eq_get]
  exact List.get?_eq_get (by omega)

/-- C10 witness: the guard, the resolution to the last chunk, and the
duplicated hit at the concrete two-chunk store. -/
theorem C10_witness :
    ¬ ((scenarioChunks.length : Int) ≤ -1) ∧
    pyGet? scenarioChunks (-1) =
      some (scenarioChunks.getLast (by decide)) ∧
    (search scenarioChunks scenarioMeta [(1, 1/5), (-1, 1/5)] 5 none none).map
        (List.map SearchHit.chunk) =
      some [uiPatternChunkB, uiPatternChunkB] :=
  C10_minus_one_resolves_to_last_chunk scenarioChunks (by decide)

end DSAgent
